import Mathlib

/-!
Verification of the `factiva-core-javascript` helper module
(`src/factiva/helper/index.js`) against its specification.

The JavaScript code is shallowly embedded: dynamically typed values are
modelled by the inductive `JSValue` (with JavaScript truthiness and
`typeof` semantics), thrown errors by the `JSErr` type, and each helper
function by a Lean function translated from the source.  Network and
file-system effects are outside the embedding; for `sendRequest` we model
the pure validation and request-construction prefix that the claims are
about, and for `apiSendRequest` the argument checks and the object literal
it hands to `sendRequest`.
-/

namespace Factiva

/-- A JavaScript value, as far as the helper module inspects values:
`undefined`, `null`, booleans, numbers (the module never branches on
fractional values, so integers suffice), strings, plain objects (ordered
field lists, first binding wins on lookup) and arrays. -/
inductive JSValue where
  | undefined
  | null
  | bool (b : Bool)
  | num (n : Int)
  | str (s : String)
  | obj (fields : List (String × JSValue))
  | arr (elems : List JSValue)

/-- JavaScript truthiness: `undefined`, `null`, `false`, `0` and `""` are
falsy; every object and array (including empty ones) is truthy. -/
def truthy : JSValue → Bool
  | .undefined => false
  | .null => false
  | .bool b => b
  | .num n => n != 0
  | .str s => s != ""
  | .obj _ => true
  | .arr _ => true

/-- JavaScript `typeof`: note `typeof null`, `typeof {}` and `typeof []`
are all `"object"`. -/
def typeOf : JSValue → String
  | .undefined => "undefined"
  | .null => "object"
  | .bool _ => "boolean"
  | .num _ => "number"
  | .str _ => "string"
  | .obj _ => "object"
  | .arr _ => "object"

/-- `Array.isArray`. -/
def isArray : JSValue → Bool
  | .arr _ => true
  | _ => false

/-- `v instanceof Object`: true for plain objects and arrays, false for
primitives, `null` and `undefined`. -/
def isInstanceOfObject : JSValue → Bool
  | .obj _ => true
  | .arr _ => true
  | _ => false

/-- Property access `v[k]`: `undefined` when the property is absent or the
value has no string-keyed own properties. -/
def jsGet : JSValue → String → JSValue
  | .obj fields, k =>
    match fields.find? (fun p => p.1 = k) with
    | some p => p.2
    | none => .undefined
  | _, _ => .undefined

/-- `Object.keys`: field names of an object, index strings of an array or
string, empty for other primitives. -/
def jsKeys : JSValue → List String
  | .obj fields => fields.map Prod.fst
  | .arr elems => (List.range elems.length).map toString
  | .str s => (List.range s.data.length).map toString
  | _ => []

/-- Destructuring with a default, `const \x7b k = d \x7d = v`: the default
applies exactly when the property is `undefined`. -/
def getOrDefault (v : JSValue) (k : String) (d : JSValue) : JSValue :=
  match jsGet v k with
  | .undefined => d
  | w => w

/-- The errors the helper module throws: `ReferenceError`, `RangeError`,
`SyntaxError`, plain `Error(msg)` and the `http-errors`
`createError(status, msg)` values. -/
inductive JSErr where
  | referenceError (msg : String)
  | rangeError (msg : String)
  | syntaxError (msg : String)
  | genericError (msg : String)
  | httpError (status : Nat) (msg : String)
  deriving Repr, DecidableEq

/-! ### maskWord (src/factiva/helper/index.js lines 131-143) -/

/-- The per-character effect of `.replace(/[a-z\d]/gi, '#')`: ASCII
letters (either case) and digits become `'#'`, all else is unchanged. -/
def maskChar (c : Char) : Char :=
  if ('a' ≤ c ∧ c ≤ 'z') ∨ ('A' ≤ c ∧ c ≤ 'Z') ∨ ('0' ≤ c ∧ c ≤ '9') then '#' else c

/-- `maskWord(wordToMask, rightPadding = 4)`.  The guard compares the
length against the literal `4` (not `rightPadding`), exactly as in the
source.  `substring` with a clamped-to-zero start index corresponds to
truncated `Nat` subtraction. -/
def maskWord (wordToMask : String) (rightPadding : Nat) : String :=
  if wordToMask.data.length ≤ 4 then
    wordToMask
  else
    String.mk
      ((wordToMask.data.take (wordToMask.data.length - rightPadding)).map maskChar
        ++ wordToMask.data.drop (wordToMask.data.length - rightPadding))

/-! ### multivalueToList (src/factiva/helper/index.js lines 362-375) -/

/-- `String.prototype.split` with a single-character separator (every
caller in the module splits on `','` or `' '`): `""` splits to `[""]`,
and separators delimit possibly empty fields. -/
def splitChar (sep : Char) : List Char → List (List Char)
  | [] => [[]]
  | c :: cs =>
    match splitChar sep cs with
    | [] => if c = sep then [[], []] else [[c]]
    | t :: ts => if c = sep then [] :: t :: ts else (c :: t) :: ts

/-- `multivalueToList(fieldValue = null, sep = ',')`: null or empty input
gives `[]`; otherwise split on the separator and keep the non-empty
tokens in order (the source pushes each `value !== ''`). -/
def multivalueToList (fieldValue : Option String) (sep : Char) : List String :=
  match fieldValue with
  | none => []
  | some s =>
    if s = "" then []
    else ((splitChar sep s.data).map String.mk).filter (fun v => v ≠ "")

/-! ### Config accessor and proxy resolution
(src/factiva/helper/index.js lines 56-77 and 175-196) -/

/-- `loadEnvVariable(configKey)`: the configuration store is a total map
from keys to `JSValue` (`undefined` for absent keys); a falsy value is
reported as a missing environment variable. -/
def loadEnvVariable (config : String → JSValue) (configKey : String) : Except JSErr JSValue :=
  let tmpVal := config configKey
  if truthy tmpVal then
    .ok tmpVal
  else
    .error (.referenceError ("Environment Variable " ++ configKey ++ " not found!"))

/-- The value `getProxyConfiguration` returns when the proxy is enabled:
`protocol`, `host` and `port` always, plus the `auth` sub-object exactly
when it was spread in. -/
structure ProxyOptions where
  protocol : JSValue
  host : JSValue
  port : JSValue
  auth : Option JSValue

/-- `getProxyConfiguration()`: destructures the `proxy` config block with
defaults `use=false`, `protocol=''`, `host=''`, `port=''`, `auth={}`;
returns the options object only when `use` is truthy, adding `auth` when
`Object.keys(auth)` contains both `'username'` and `'password'`.  The
`catch` swallowing a lookup failure is the `.error _ => none` branch. -/
def getProxyConfiguration (config : String → JSValue) : Option ProxyOptions :=
  match loadEnvVariable config "proxy" with
  | .error _ => none
  | .ok v =>
    let use := getOrDefault v "use" (.bool false)
    let protocol := getOrDefault v "protocol" (.str "")
    let host := getOrDefault v "host" (.str "")
    let port := getOrDefault v "port" (.str "")
    let auth := getOrDefault v "auth" (.obj [])
    if truthy use then
      if "username" ∈ jsKeys auth ∧ "password" ∈ jsKeys auth then
        some { protocol := protocol, host := host, port := port, auth := some auth }
      else
        some { protocol := protocol, host := host, port := port, auth := none }
    else
      none

/-! ### handleError (src/factiva/helper/index.js lines 150-169) -/

/-- The part of an axios failure `err.response` that `handleError`
inspects: the status code, the status text, and `data.errors` as an
optional list of `(title, detail)` entries (`none` models an absent or
falsy `errors` field). -/
structure ErrResponse where
  status : Nat
  statusText : String
  errors : Option (List (String × String))
  deriving Repr, DecidableEq

/-- `handleError(err)`: 403 maps to the fixed API-key error; otherwise a
structured `errors` array is joined (default `Array.prototype.join`
separator `','`) into the message; otherwise a generic message carrying
the status text.  The thrown `createError(status, msg)` is returned as a
`JSErr.httpError`. -/
def handleError (err : ErrResponse) : JSErr :=
  if err.status = 403 then
    .httpError 403 "Factiva API-Key does not exist or inactive."
  else
    match err.errors with
    | some es =>
      .httpError err.status
        ("Unexpected API Error with message: " ++ err.statusText ++ ": "
          ++ String.intercalate "," (es.map (fun e => e.1 ++ ": " ++ e.2)))
    | none =>
      .httpError err.status
        ("Unexpected API Error with message: " ++ err.statusText ++ ".")

/-! ### validateType (src/factiva/helper/index.js lines 86-104) -/

/-- `validateType(varToValidate, expectedType, errorMessage)`: the switch
throws a `ReferenceError` when the check for the expected kind fails;
every non-throwing path falls through to `return SyntaxError('Type not
identified')`, so the success value is that `SyntaxError`, not the
validated variable. -/
def validateType (varToValidate : JSValue) (expectedType errorMessage : String) :
    Except JSErr JSErr :=
  if expectedType = "array" then
    if isArray varToValidate then .ok (.syntaxError "Type not identified")
    else .error (.referenceError errorMessage)
  else if expectedType = "object" then
    if isInstanceOfObject varToValidate then .ok (.syntaxError "Type not identified")
    else .error (.referenceError errorMessage)
  else
    if typeOf varToValidate = expectedType then .ok (.syntaxError "Type not identified")
    else .error (.referenceError errorMessage)

/-- Follows the claim's wording: the value matches the expected kind —
`'array'` via `Array.isArray`, `'object'` via `instanceof Object`, and a
primitive kind name via `typeof` equality. -/
def matchesExpectedKind (varToValidate : JSValue) (expectedType : String) : Prop :=
  if expectedType = "array" then isArray varToValidate = true
  else if expectedType = "object" then isInstanceOfObject varToValidate = true
  else typeOf varToValidate = expectedType

/-! ### validateOption and downloadFile
(src/factiva/helper/index.js lines 113-120 and 314-339) -/

/-- `' '`, tab, newline and carriage return, as trimmed by
`String.prototype.trim` on the inputs the module handles. -/
def isTrimmedSpace (c : Char) : Bool :=
  c = ' ' ∨ c = '\t' ∨ c = '\n' ∨ c = '\r'

/-- `String.prototype.trim`. -/
def jsTrim (s : String) : String :=
  String.mk (((s.data.dropWhile isTrimmedSpace).reverse.dropWhile isTrimmedSpace).reverse)

/-- `validateOption(option, validOptions)`: throws a `RangeError` when the
trimmed option is not among the valid options, and returns the original
(untrimmed) option otherwise.  The interpolated `${validOptions}` is the
array's default comma join. -/
def validateOption (option : String) (validOptions : List String) : Except JSErr String :=
  if jsTrim option ∈ validOptions then
    .ok option
  else
    .error (.rangeError ("Option value " ++ option ++ " is not within the allowed options: "
      ++ String.intercalate "," validOptions))

/-- `downloadFile(fileUrl, headers, fileName, fileExtension, toSavePath,
addTimestamp = false)`, network and file-system effects elided.

Modelled from the spec: the constants module (`src/factiva/core/constants`
index) that exports the fixed allow-list `API_EXTRACTION_FILE_FORMATS` is
not among the sources, so the allow-list is the `formats` parameter; the
spec only calls it "a fixed allow-list" of file extensions.

After `validateOption` succeeds and the timestamp is optionally appended,
the source evaluates `join(toSavePath, ...)` — but `join` is never
imported in `src/factiva/helper/index.js` (no `path` import exists), so
this line throws `ReferenceError: join is not defined` before the request
is dispatched; `timeStamp` stands for `new Date().toISOString()`. -/
def downloadFile (formats : List String) (fileName fileExtension toSavePath : String)
    (addTimestamp : Bool) (timeStamp : String) : Except JSErr String :=
  match validateOption fileExtension formats with
  | .error e => .error e
  | .ok _ =>
    let _fileNameStamped := if addTimestamp then fileName ++ "-" ++ timeStamp else fileName
    let _ := toSavePath
    .error (.referenceError "join is not defined")

/-! ### Request dispatch: apiSendRequest and sendRequest
(src/factiva/helper/index.js lines 203-302) -/

/-- `String.prototype.toUpperCase` on the ASCII method names the module
compares against. -/
def toUpperCase (s : String) : String :=
  String.mk (s.data.map Char.toUpper)

/-- Modelled from the spec: `REQUEST_DEFAULT_TYPE` is exported by the
constants module (`src/factiva/core/constants` index), which is not among
the sources; the spec describes the default response mode as buffered
JSON. -/
def REQUEST_DEFAULT_TYPE : JSValue := .str "json"

/-- Strict equality `v === 's'` against a string literal. -/
def isStr (v : JSValue) (s : String) : Bool :=
  match v with
  | .str t => t = s
  | _ => false

/-- The object literal `apiSendRequest` passes to `sendRequest` (source
lines 291-299).  Note the caller's `qsParams` is bound to the key
`params`: the literal has no `qsParams` key. -/
def callSiteLiteral (methUpper : String)
    (endpointUrl headers qsParams payload responseType fileName : JSValue) :
    List (String × JSValue) :=
  [("method", .str methUpper), ("endpointUrl", endpointUrl), ("headers", headers),
   ("params", qsParams), ("payload", payload), ("responseType", responseType),
   ("fileName", fileName)]

/-- `apiSendRequest`'s argument checks (source lines 278-289), returning
the object literal it would hand to `sendRequest`.  The method is a
string (the source calls `method.toUpperCase()`). -/
def apiSendRequest (method : String)
    (endpointUrl headers qsParams payload responseType fileName : JSValue) :
    Except JSErr (List (String × JSValue)) :=
  if truthy headers = false then
    .error (.referenceError "Headers for Factiva requests cannot be empty")
  else if typeOf headers ≠ "object" then
    .error (.referenceError "Unexpected headers value")
  else
    let methUpper := toUpperCase method
    if methUpper ≠ "POST" ∧ methUpper ≠ "GET" ∧ methUpper ≠ "DELETE" then
      .error (.referenceError "Unexpected method value")
    else
      .ok (callSiteLiteral methUpper endpointUrl headers qsParams payload responseType fileName)

/-- The local variables `sendRequest` destructures from its single
options argument (source lines 203-211). -/
structure SendRequestArgs where
  method : JSValue
  endpointUrl : JSValue
  payload : JSValue
  headers : JSValue
  qsParams : JSValue
  responseType : JSValue
  fileName : JSValue

/-- `sendRequest`'s parameter destructuring applied to an options object:
plain patterns default to `undefined` for absent keys, and the declared
defaults (`responseType = REQUEST_DEFAULT_TYPE`, `fileName = './tmp.csv'`)
apply exactly when the property is `undefined`. -/
def sendRequestReceives (fields : List (String × JSValue)) : SendRequestArgs :=
  { method := getOrDefault (.obj fields) "method" .undefined
    endpointUrl := getOrDefault (.obj fields) "endpointUrl" .undefined
    payload := getOrDefault (.obj fields) "payload" .undefined
    headers := getOrDefault (.obj fields) "headers" .undefined
    qsParams := getOrDefault (.obj fields) "qsParams" .undefined
    responseType := getOrDefault (.obj fields) "responseType" REQUEST_DEFAULT_TYPE
    fileName := getOrDefault (.obj fields) "fileName" (.str "./tmp.csv") }

/-- The `data` computation for a POST payload (source lines 216-225),
parameterized by `JSON.parse` (a pure `String → Except` stand-in for the
library parser).  `typeof payload === 'object'` holds for objects and
arrays here (`null` is excluded by the truthiness guard), and
`typeof payload === 'string'` for strings; every other truthy payload
falls to `throw Error('Unexpected payload value')`.  `.ok none` means
`data` stays `undefined`. -/
def computePostData (jsonParse : String → Except JSErr JSValue)
    (method payload : JSValue) : Except JSErr (Option JSValue) :=
  if isStr method "POST" = true ∧ truthy payload = true then
    match payload with
    | .obj fields => .ok (some (.obj fields))
    | .arr elems => .ok (some (.arr elems))
    | .str s => (jsonParse s).map some
    | _ => .error (.genericError "Unexpected payload value")
  else
    .ok none

/-- The validation prefix of `sendRequest` (source lines 212-225): the
`qsParams` check, then the POST payload handling.  The subsequent request
construction, proxy attachment and axios dispatch are effects outside the
claims about this prefix. -/
def sendRequestValidate (jsonParse : String → Except JSErr JSValue)
    (a : SendRequestArgs) : Except JSErr (Option JSValue) :=
  if isStr a.method "GET" = true ∧ truthy a.qsParams = true ∧ typeOf a.qsParams ≠ "object" then
    .error (.referenceError "Unexpected qsParams value")
  else
    computePostData jsonParse a.method a.payload

/-- A concrete pure stand-in for `JSON.parse`, used to instantiate
theorems that are quantified over the parser. -/
def jsonParseId : String → Except JSErr JSValue := fun s => .ok (.str s)

/-! ### Theorems for maskWord and multivalueToList -/

/-- C8: with the default suffix length 4, `maskWord` on a word longer
than 4 characters keeps the length, preserves the last 4 characters
verbatim, and replaces every alphanumeric character among the preceding
ones with the fixed mask character `'#'` (leaving other characters
unchanged, per `maskChar`); a word of length at most 4 is returned
unchanged. -/
theorem maskWord_spec (w : String) :
    (w.data.length ≤ 4 → maskWord w 4 = w)
  ∧ (4 < w.data.length →
      (maskWord w 4).data.length = w.data.length
    ∧ (maskWord w 4).data.drop (w.data.length - 4) = w.data.drop (w.data.length - 4)
    ∧ (maskWord w 4).data.take (w.data.length - 4)
        = (w.data.take (w.data.length - 4)).map maskChar) := by
  constructor
  · intro h
    unfold maskWord
    rw [if_pos h]
  · intro h
    have hn : ¬ w.data.length ≤ 4 := by omega
    have key : maskWord w 4
        = String.mk ((w.data.take (w.data.length - 4)).map maskChar
            ++ w.data.drop (w.data.length - 4)) := by
      unfold maskWord
      rw [if_neg hn]
    have hA : ((w.data.take (w.data.length - 4)).map maskChar).length = w.data.length - 4 := by
      rw [List.length_map, List.length_take]
      omega
    refine ⟨?_, ?_, ?_⟩
    · rw [key]
      have hlen : (((w.data.take (w.data.length - 4)).map maskChar)
          ++ w.data.drop (w.data.length - 4)).length = w.data.length := by
        rw [List.length_append, hA, List.length_drop]
        omega
      exact hlen
    · rw [key]
      exact List.drop_left' hA
    · rw [key]
      exact List.take_left' hA

/-- Witness for C8 at the JSDoc example word `"abcdefghijkl"`. -/
theorem maskWord_spec_witness :
    4 < ("abcdefghijkl" : String).data.length
  ∧ (maskWord "abcdefghijkl" 4).data.take (("abcdefghijkl" : String).data.length - 4)
      = (("abcdefghijkl" : String).data.take (("abcdefghijkl" : String).data.length - 4)).map
          maskChar :=
  ⟨by decide, ((maskWord_spec "abcdefghijkl").2 (by decide)).2.2⟩

/-- C9: `multivalueToList` yields `[]` on `null` and on the empty string;
on any non-empty string it yields, in order, exactly the non-empty tokens
of the separator split; in particular `'a,,b'` with the default separator
`','` yields `['a', 'b']`. -/
theorem multivalueToList_spec :
    multivalueToList none ',' = []
  ∧ multivalueToList (some "") ',' = []
  ∧ (∀ s sep, s ≠ "" →
      multivalueToList (some s) sep
        = ((splitChar sep s.data).map String.mk).filter (fun v => v ≠ ""))
  ∧ multivalueToList (some "a,,b") ',' = ["a", "b"] := by
  refine ⟨rfl, rfl, ?_, by decide⟩
  intro s sep hs
  simp [multivalueToList, hs]

/-- Witness for C9: the general token characterization applied at
`'a,,b'`. -/
theorem multivalueToList_spec_witness :
    ("a,,b" : String) ≠ ""
  ∧ multivalueToList (some "a,,b") ','
      = ((splitChar ',' ("a,,b" : String).data).map String.mk).filter (fun v => v ≠ "") :=
  ⟨by decide, multivalueToList_spec.2.2.1 "a,,b" ',' (by decide)⟩

/-! ### Theorems for proxy resolution, error translation, validateType
and downloadFile -/

/-- C4: `getProxyConfiguration` returns `null` exactly when the `proxy`
config lookup fails (falsy value, the thrown error being swallowed) or
the block's `use` field is falsy; any returned object carries the block's
`protocol`, `host` and `port` (with the destructuring defaults), and
carries an `auth` property — necessarily the block's `auth` sub-mapping —
if and only if both `'username'` and `'password'` are among that
sub-mapping's keys. -/
theorem getProxyConfiguration_spec (config : String → JSValue) :
    (getProxyConfiguration config = none ↔
       (truthy (config "proxy") = false
        ∨ truthy (getOrDefault (config "proxy") "use" (.bool false)) = false))
  ∧ (∀ r, getProxyConfiguration config = some r →
       r.protocol = getOrDefault (config "proxy") "protocol" (.str "")
     ∧ r.host = getOrDefault (config "proxy") "host" (.str "")
     ∧ r.port = getOrDefault (config "proxy") "port" (.str "")
     ∧ (r.auth ≠ none ↔
          ("username" ∈ jsKeys (getOrDefault (config "proxy") "auth" (.obj []))
           ∧ "password" ∈ jsKeys (getOrDefault (config "proxy") "auth" (.obj []))))
     ∧ (∀ a, r.auth = some a → a = getOrDefault (config "proxy") "auth" (.obj []))) := by
  by_cases h : truthy (config "proxy") = true
  · by_cases hu : truthy (getOrDefault (config "proxy") "use" (.bool false)) = true
    · by_cases hk : "username" ∈ jsKeys (getOrDefault (config "proxy") "auth" (.obj []))
          ∧ "password" ∈ jsKeys (getOrDefault (config "proxy") "auth" (.obj []))
      · constructor
        · simp [getProxyConfiguration, loadEnvVariable, h, hu, hk]
        · intro r hr
          simp [getProxyConfiguration, loadEnvVariable, h, hu, hk] at hr
          subst hr
          refine ⟨rfl, rfl, rfl, by simp [hk], ?_⟩
          intro a ha
          simpa using ha.symm
      · constructor
        · simp [getProxyConfiguration, loadEnvVariable, h, hu, hk]
        · intro r hr
          simp [getProxyConfiguration, loadEnvVariable, h, hu, hk] at hr
          subst hr
          refine ⟨rfl, rfl, rfl, by simp [hk], ?_⟩
          intro a ha
          simp at ha
    · constructor
      · simp [getProxyConfiguration, loadEnvVariable, h, hu]
      · intro r hr
        simp [getProxyConfiguration, loadEnvVariable, h, hu] at hr
  · constructor
    · simp [getProxyConfiguration, loadEnvVariable, h]
    · intro r hr
      simp [getProxyConfiguration, loadEnvVariable, h] at hr

/-- A configuration store with the proxy enabled and full credentials,
matching the end-to-end scenario of the spec's testable properties. -/
def cfgDemo : String → JSValue := fun k =>
  if k = "proxy" then
    .obj [("use", .bool true), ("protocol", .str "http"), ("host", .str "proxy.example.com"),
      ("port", .str "8080"),
      ("auth", .obj [("username", .str "demo"), ("password", .str "demo")])]
  else
    .undefined

/-- Witness for C4: on `cfgDemo` the result carries `auth` with both
credential fields, as the keys are both present. -/
theorem getProxyConfiguration_spec_witness :
    getProxyConfiguration cfgDemo = some
      ⟨.str "http", .str "proxy.example.com", .str "8080",
        some (.obj [("username", .str "demo"), ("password", .str "demo")])⟩
  ∧ ((some (JSValue.obj [("username", JSValue.str "demo"), ("password", JSValue.str "demo")])
        : Option JSValue) ≠ none ↔
      ("username" ∈ jsKeys (getOrDefault (cfgDemo "proxy") "auth" (.obj []))
       ∧ "password" ∈ jsKeys (getOrDefault (cfgDemo "proxy") "auth" (.obj [])))) :=
  ⟨rfl,
    ((getProxyConfiguration_spec cfgDemo).2
      ⟨.str "http", .str "proxy.example.com", .str "8080",
        some (.obj [("username", .str "demo"), ("password", .str "demo")])⟩ rfl).2.2.2.1⟩

/-- C5: `handleError` translates a 403 response to the fixed
invalid-or-inactive API-key error; otherwise, a present `errors` array
yields an error with the original status and the title/detail entries
joined into the message; otherwise a generic unexpected-API-error with
the status code and status text. -/
theorem handleError_spec (r : ErrResponse) :
    (r.status = 403 →
       handleError r = .httpError 403 "Factiva API-Key does not exist or inactive.")
  ∧ (r.status ≠ 403 → ∀ es, r.errors = some es →
       handleError r = .httpError r.status
         ("Unexpected API Error with message: " ++ r.statusText ++ ": "
           ++ String.intercalate "," (es.map (fun e => e.1 ++ ": " ++ e.2))))
  ∧ (r.status ≠ 403 → r.errors = none →
       handleError r = .httpError r.status
         ("Unexpected API Error with message: " ++ r.statusText ++ ".")) := by
  refine ⟨?_, ?_, ?_⟩
  · intro h
    simp [handleError, h]
  · intro h es hes
    simp [handleError, h, hes]
  · intro h hes
    simp [handleError, h, hes]

/-- A non-403 failure response with one structured error entry. -/
def errDemo : ErrResponse :=
  { status := 500, statusText := "Server Error",
    errors := some [("Invalid query", "missing date range")] }

/-- Witness for C5 at a 500 response carrying one `errors` entry. -/
theorem handleError_spec_witness :
    errDemo.status ≠ 403
  ∧ handleError errDemo = .httpError errDemo.status
      ("Unexpected API Error with message: " ++ errDemo.statusText ++ ": "
        ++ String.intercalate ","
            ([("Invalid query", "missing date range")].map
              (fun e : String × String => e.1 ++ ": " ++ e.2))) :=
  ⟨by decide,
    (handleError_spec errDemo).2.1 (by decide) [("Invalid query", "missing date range")] rfl⟩

/-- C10: when the value matches the expected kind, `validateType` does
not throw and returns the `SyntaxError('Type not identified')` value
rather than the validated value; it throws the `ReferenceError` with the
supplied message exactly when the value does not match. -/
theorem validateType_spec (v : JSValue) (k m : String) :
    (matchesExpectedKind v k →
       validateType v k m = .ok (.syntaxError "Type not identified"))
  ∧ (¬ matchesExpectedKind v k →
       validateType v k m = .error (.referenceError m)) := by
  by_cases hk : k = "array"
  · subst hk
    constructor
    · intro h
      simp [matchesExpectedKind] at h
      simp [validateType, h]
    · intro h
      simp [matchesExpectedKind] at h
      simp [validateType, h]
  · by_cases ho : k = "object"
    · subst ho
      constructor
      · intro h
        simp [matchesExpectedKind] at h
        simp [validateType, h]
      · intro h
        simp [matchesExpectedKind] at h
        simp [validateType, h]
    · constructor
      · intro h
        simp [matchesExpectedKind, hk, ho] at h
        simp [validateType, hk, ho, h]
      · intro h
        simp [matchesExpectedKind, hk, ho] at h
        simp [validateType, hk, ho, h]

/-- Witness for C10: an array value checked against kind `'array'`. -/
theorem validateType_spec_witness :
    matchesExpectedKind (.arr []) "array"
  ∧ validateType (.arr []) "array" "Value must be an array"
      = .ok (.syntaxError "Type not identified") :=
  ⟨by simp [matchesExpectedKind, isArray],
    (validateType_spec (.arr []) "array" "Value must be an array").1
      (by simp [matchesExpectedKind, isArray])⟩

/-- C7: because the module never imports `join`, every `downloadFile`
call whose extension passes the allow-list check throws
`ReferenceError: join is not defined` instead of returning the local file
path; an extension outside the allow-list still fails with the
not-in-allowed-options `RangeError` first. -/
theorem downloadFile_join_bug :
    downloadFile ["csv", "avro", "json"] "snapshot" "csv" "./downloads" false ""
      = .error (.referenceError "join is not defined")
  ∧ downloadFile ["csv", "avro", "json"] "snapshot" "pdf" "./downloads" false ""
      = .error (.rangeError ("Option value pdf is not within the allowed options: "
          ++ String.intercalate "," ["csv", "avro", "json"])) :=
  ⟨rfl, rfl⟩

/-! ### Theorems for the request dispatch layer -/

/-- C1 (counterexample): an empty headers mapping is truthy in
JavaScript, so `apiSendRequest` with `headers = {}` passes both header
checks and proceeds — it does not raise the missing-headers error the
claim requires for an empty mapping. -/
theorem apiSendRequest_emptyHeaders_ok :
    apiSendRequest "GET" (.str "https://api.example.com") (.obj []) .null .null
        REQUEST_DEFAULT_TYPE .null
      = .ok (callSiteLiteral "GET" (.str "https://api.example.com") (.obj []) .null .null
          REQUEST_DEFAULT_TYPE .null) := by
  rfl

/-- C1 (amended): `apiSendRequest` fails with the missing-headers error
exactly when the headers argument is falsy (omitted, `null`, or another
falsy value — an empty mapping is truthy and passes); with truthy
object-typed headers it fails with the unsupported-method error when the
uppercased method is not POST, GET or DELETE, and with a supported method
neither error is raised and the call proceeds. -/
theorem apiSendRequest_spec (method : String)
    (endpointUrl headers qsParams payload responseType fileName : JSValue) :
    (truthy headers = false →
       apiSendRequest method endpointUrl headers qsParams payload responseType fileName
         = .error (.referenceError "Headers for Factiva requests cannot be empty"))
  ∧ (truthy headers = true → typeOf headers = "object" →
       toUpperCase method ≠ "POST" → toUpperCase method ≠ "GET" →
       toUpperCase method ≠ "DELETE" →
       apiSendRequest method endpointUrl headers qsParams payload responseType fileName
         = .error (.referenceError "Unexpected method value"))
  ∧ (truthy headers = true → typeOf headers = "object" →
       (toUpperCase method = "POST" ∨ toUpperCase method = "GET"
        ∨ toUpperCase method = "DELETE") →
       apiSendRequest method endpointUrl headers qsParams payload responseType fileName
         = .ok (callSiteLiteral (toUpperCase method) endpointUrl headers qsParams payload
             responseType fileName)) := by
  refine ⟨?_, ?_, ?_⟩
  · intro h
    simp [apiSendRequest, h]
  · intro h1 h2 h3 h4 h5
    simp [apiSendRequest, h1, h2, h3, h4, h5]
  · intro h1 h2 h3
    rcases h3 with h | h | h <;> simp [apiSendRequest, h1, h2, h]

/-- Witness for C1: truthy object headers and method `'delete'`
(uppercased to a supported method) raise neither error. -/
theorem apiSendRequest_spec_witness :
    truthy (JSValue.obj [("user-key", JSValue.str "abc")]) = true
  ∧ typeOf (JSValue.obj [("user-key", JSValue.str "abc")]) = "object"
  ∧ apiSendRequest "delete" (.str "https://api.example.com")
        (.obj [("user-key", .str "abc")]) .null .null REQUEST_DEFAULT_TYPE .null
      = .ok (callSiteLiteral (toUpperCase "delete") (.str "https://api.example.com")
          (.obj [("user-key", .str "abc")]) .null .null REQUEST_DEFAULT_TYPE .null) :=
  ⟨rfl, rfl,
    (apiSendRequest_spec "delete" (.str "https://api.example.com")
        (.obj [("user-key", .str "abc")]) .null .null REQUEST_DEFAULT_TYPE .null).2.2
      rfl rfl (Or.inr (Or.inr (by decide)))⟩

/-- C2: `apiSendRequest` binds the caller's query parameters to the key
`params` in the object it hands to `sendRequest`, but `sendRequest`
destructures `qsParams`, a key the literal never defines — so whatever
query parameters the caller supplies, `sendRequest` receives `undefined`
for them.  At the concrete failing input the checks pass, the literal is
produced, and the received `qsParams` is `undefined`, not the supplied
mapping. -/
theorem apiSendRequest_forwarding_bug :
    (∀ (methUpper : String)
        (endpointUrl headers qsParams payload responseType fileName : JSValue),
      (sendRequestReceives (callSiteLiteral methUpper endpointUrl headers qsParams payload
          responseType fileName)).qsParams = .undefined)
  ∧ apiSendRequest "get" (.str "https://api.example.com")
        (.obj [("user-key", .str "abc")]) (.obj [("query", .str "q1")]) .null
        REQUEST_DEFAULT_TYPE .null
      = .ok (callSiteLiteral "GET" (.str "https://api.example.com")
          (.obj [("user-key", .str "abc")]) (.obj [("query", .str "q1")]) .null
          REQUEST_DEFAULT_TYPE .null)
  ∧ (sendRequestReceives (callSiteLiteral "GET" (.str "https://api.example.com")
        (.obj [("user-key", .str "abc")]) (.obj [("query", .str "q1")]) .null
        REQUEST_DEFAULT_TYPE .null)).qsParams ≠ .obj [("query", .str "q1")] :=
  ⟨fun _ _ _ _ _ _ _ => rfl, by rfl, fun h => JSValue.noConfusion h⟩

/-- C3 (counterexample): query parameters present with method POST do not
raise the unexpected-query-parameters error — the validation proceeds to
the payload step and succeeds. -/
theorem sendRequest_qsParams_counterexample :
    sendRequestValidate jsonParseId
      { method := .str "POST", endpointUrl := .str "https://api.example.com",
        payload := .null, headers := .obj [("user-key", .str "abc")],
        qsParams := .obj [("query", .str "q1")], responseType := .str "json",
        fileName := .null }
      = .ok none := rfl

/-- C3 (amended): `sendRequest` raises the unexpected-query-parameters
error exactly when the method is GET and the query parameters are truthy
but not object-typed; with a non-GET method — or with object-typed query
parameters — the check never fires and validation proceeds to the payload
step. -/
theorem sendRequest_qsParams_spec (jsonParse : String → Except JSErr JSValue)
    (a : SendRequestArgs) :
    ((isStr a.method "GET" = true ∧ truthy a.qsParams = true
        ∧ typeOf a.qsParams ≠ "object") →
       sendRequestValidate jsonParse a = .error (.referenceError "Unexpected qsParams value"))
  ∧ (isStr a.method "GET" = false →
       sendRequestValidate jsonParse a = computePostData jsonParse a.method a.payload)
  ∧ (typeOf a.qsParams = "object" →
       sendRequestValidate jsonParse a = computePostData jsonParse a.method a.payload) := by
  refine ⟨?_, ?_, ?_⟩
  · intro h
    simp [sendRequestValidate, h.1, h.2.1, h.2.2]
  · intro h
    simp [sendRequestValidate, h]
  · intro h
    simp [sendRequestValidate, h]

/-- Witness for C3: method GET with a truthy string-typed `qsParams`
raises the unexpected-query-parameters error. -/
theorem sendRequest_qsParams_spec_witness :
    (isStr (JSValue.str "GET") "GET" = true ∧ truthy (JSValue.str "region=US") = true
      ∧ typeOf (JSValue.str "region=US") ≠ "object")
  ∧ sendRequestValidate jsonParseId
      { method := .str "GET", endpointUrl := .str "https://api.example.com",
        payload := .null, headers := .obj [], qsParams := .str "region=US",
        responseType := .str "json", fileName := .null }
      = .error (.referenceError "Unexpected qsParams value") :=
  ⟨⟨by decide, by decide, by decide⟩,
    (sendRequest_qsParams_spec jsonParseId
      { method := .str "GET", endpointUrl := .str "https://api.example.com",
        payload := .null, headers := .obj [], qsParams := .str "region=US",
        responseType := .str "json", fileName := .null }).1
      ⟨by decide, by decide, by decide⟩⟩

/-- C6: for a POST with a truthy payload, an object-typed payload (object
or array) is used as the request body directly, a string payload is
handed to `JSON.parse` and the parse result used, and any other payload
shape fails with the generic payload error. -/
theorem sendRequest_payload_spec (jsonParse : String → Except JSErr JSValue)
    (a : SendRequestArgs) :
    isStr a.method "POST" = true → truthy a.payload = true →
    ((typeOf a.payload = "object" →
        sendRequestValidate jsonParse a = .ok (some a.payload))
   ∧ (∀ s, a.payload = .str s →
        sendRequestValidate jsonParse a = (jsonParse s).map some)
   ∧ (typeOf a.payload ≠ "object" → typeOf a.payload ≠ "string" →
        sendRequestValidate jsonParse a = .error (.genericError "Unexpected payload value"))) := by
  intro hm hp
  have hng : isStr a.method "GET" = false := by
    cases hmv : a.method <;> simp_all [isStr]
  have hval : sendRequestValidate jsonParse a = computePostData jsonParse a.method a.payload := by
    simp [sendRequestValidate, hng]
  rw [hval]
  refine ⟨?_, ?_, ?_⟩
  · intro hobj
    cases hpv : a.payload <;> rw [hpv] at hp hobj <;>
      simp_all [computePostData, typeOf, truthy]
  · intro s hs
    rw [hs] at hp ⊢
    simp [computePostData, hm, hp]
  · intro h1 h2
    cases hpv : a.payload <;> rw [hpv] at hp h1 h2 <;>
      simp_all [computePostData, typeOf, truthy]

/-- Witness for C6: a POST whose payload is a structured object is used
as the body directly. -/
theorem sendRequest_payload_spec_witness :
    isStr (JSValue.str "POST") "POST" = true
  ∧ truthy (JSValue.obj [("query", JSValue.str "factiva")]) = true
  ∧ sendRequestValidate jsonParseId
      { method := .str "POST", endpointUrl := .str "https://api.example.com",
        payload := .obj [("query", .str "factiva")], headers := .obj [],
        qsParams := .null, responseType := .str "json", fileName := .null }
      = .ok (some (.obj [("query", .str "factiva")])) :=
  ⟨by decide, rfl,
    ((sendRequest_payload_spec jsonParseId
      { method := .str "POST", endpointUrl := .str "https://api.example.com",
        payload := .obj [("query", .str "factiva")], headers := .obj [],
        qsParams := .null, responseType := .str "json", fileName := .null })
      (by decide) rfl).1 rfl⟩

end Factiva
